import Mathlib

/-!
Verification of the epstein-files-downloader repository.

This file shallowly embeds the program's data model and operations:
the static dataset catalog and URL templating (`config.py`), the
download orchestration guards and argument lists (`downloader.py`),
the status inspector's index reading (`cli.py`), and the scraping
pipeline (ScrapeIndex merge, scrape loop, missing-file reconciliation).
The scraper module itself is imported by `cli.py` but its source file is
not present in the repository snapshot, so those operations are modelled
from the specification text and are marked as such in their doc comments.
-/

namespace EpsteinDL

/-- Required cookie for the DOJ website, from `config.py`. -/
def DOJ_COOKIE : String := "justiceGovAgeVerified=true"

/-- Base URL of the DOJ website, from `config.py`. -/
def DOJ_BASE_URL : String := "https://www.justice.gov"

/-- Files base URL, from `config.py`. -/
def DOJ_FILES_URL : String := DOJ_BASE_URL ++ "/epstein/files"

/-- Listing base URL, from `config.py`. -/
def DOJ_LISTING_URL : String := DOJ_BASE_URL ++ "/epstein/doj-disclosures"

/-- Archive.org trackers for torrents, from `config.py`. -/
def TRACKERS : List String :=
  [ "http://bt1.archive.org:6969/announce"
  , "http://bt2.archive.org:6969/announce"
  , "udp://tracker.opentrackr.org:1337/announce"
  , "udp://tracker.openbittorrent.com:6969/announce"
  , "udp://9.rarbg.com:2810/announce"
  , "udp://explodie.org:6969/announce"
  , "udp://tracker.torrent.eu.org:451/announce"
  , "udp://tracker.moeking.me:6969/announce"
  , "udp://open.stealth.si:80/announce"
  , "udp://vibe.community:6969/announce" ]

/-- Information about a dataset, mirroring the `DatasetInfo` dataclass in
`config.py`. -/
structure DatasetInfo where
  number : Nat
  zip_available : Bool
  zip_size_mb : Option Nat
  magnet : Option String
  magnet_size_gb : Option Nat
  efta_start : Option Nat
  efta_end : Option Nat
  checksum_sha256 : Option String := none
  checksum_md5 : Option String := none
deriving DecidableEq

/-- The static dataset catalog `DATASETS` from `config.py`, as an
association list keyed by dataset number. The fractional
`magnet_size_gb` values (46, 82, 0.114) are informational display data
only; they are recorded rounded down to whole gigabytes, which no claim
inspects. -/
def DATASETS : List (Nat × DatasetInfo) :=
  [ (1, { number := 1, zip_available := true, zip_size_mb := some 1260
        , magnet := none, magnet_size_gb := none
        , efta_start := some 1, efta_end := some 39024 })
  , (2, { number := 2, zip_available := true, zip_size_mb := some 631
        , magnet := none, magnet_size_gb := none
        , efta_start := none, efta_end := none })
  , (3, { number := 3, zip_available := true, zip_size_mb := some 595
        , magnet := none, magnet_size_gb := none
        , efta_start := none, efta_end := none })
  , (4, { number := 4, zip_available := true, zip_size_mb := some 352
        , magnet := none, magnet_size_gb := none
        , efta_start := none, efta_end := none })
  , (5, { number := 5, zip_available := true, zip_size_mb := some 61
        , magnet := none, magnet_size_gb := none
        , efta_start := none, efta_end := none })
  , (6, { number := 6, zip_available := true, zip_size_mb := some 51
        , magnet := none, magnet_size_gb := none
        , efta_start := none, efta_end := none })
  , (7, { number := 7, zip_available := true, zip_size_mb := some 97
        , magnet := none, magnet_size_gb := none
        , efta_start := none, efta_end := none })
  , (8, { number := 8, zip_available := true, zip_size_mb := some 10200
        , magnet := none, magnet_size_gb := none
        , efta_start := none, efta_end := none })
  , (9, { number := 9, zip_available := false, zip_size_mb := none
        , magnet := some "magnet:?xt=urn:btih:0a3d4b84a77bd982c9c2761f40944402b94f9c64"
        , magnet_size_gb := some 46
        , efta_start := some 39025, efta_end := some 1262781 })
  , (10, { number := 10, zip_available := false, zip_size_mb := none
         , magnet := some "magnet:?xt=urn:btih:d509cc4ca1a415a9ba3b6cb920f67c44aed7fe1f"
         , magnet_size_gb := some 82
         , efta_start := some 1262782, efta_end := some 2205654
         , checksum_sha256 := some "7D6935B1C63FF2F6BCABDD024EBC2A770F90C43B0D57B646FA7CBD4C0ABCF846"
         , checksum_md5 := some "B8A72424AE812FD21D225195812B2502" })
  , (11, { number := 11, zip_available := false, zip_size_mb := none
         , magnet := none, magnet_size_gb := none
         , efta_start := some 2205655, efta_end := some 2730264 })
  , (12, { number := 12, zip_available := true, zip_size_mb := some 114
         , magnet := some "magnet:?xt=urn:btih:8bc781c7259f4b82406cd2175a1d5e9c3b6bfc90"
         , magnet_size_gb := some 0
         , efta_start := some 2730265, efta_end := none }) ]

/-- `DATASETS.get(n)` lookup, as in the Python dict access. -/
def findDataset (n : Nat) : Option DatasetInfo :=
  DATASETS.lookup n

/-- The ZIP download URL for a dataset, `get_zip_url` in `config.py`. -/
def get_zip_url (dataset_num : Nat) : String :=
  DOJ_FILES_URL ++ "/DataSet%20" ++ Nat.repr dataset_num ++ ".zip"

/-- Python's `f"{n:08d}"` formatting for a natural number: the decimal
representation left-padded with zeros to a minimum width of 8. -/
def pyFormat08 (n : Nat) : String :=
  String.mk (List.replicate (8 - (Nat.repr n).length) '0') ++ Nat.repr n

/-- The PDF URL for a specific EFTA number, `get_pdf_url` in `config.py`. -/
def get_pdf_url (dataset_num efta_num : Nat) : String :=
  DOJ_FILES_URL ++ "/DataSet%20" ++ Nat.repr dataset_num ++ "/EFTA"
    ++ pyFormat08 efta_num ++ ".pdf"

/-- The file listing page URL, `get_listing_url` in `config.py`. -/
def get_listing_url (dataset_num page : Nat) : String :=
  DOJ_LISTING_URL ++ "/data-set-" ++ Nat.repr dataset_num ++ "-files?page="
    ++ Nat.repr page

/-- The tracker query parameters: one `tr=` entry per tracker, joined by
ampersands, in `TRACKERS` order. -/
def trackerParams : String :=
  String.intercalate "&" (TRACKERS.map (fun t => "tr=" ++ t))

/-- `get_magnet_with_trackers` from `config.py`: appends the tracker
parameters to a magnet link, using an ampersand separator when the magnet
already carries a query string and a question mark otherwise; an empty
magnet is returned unchanged. -/
def get_magnet_with_trackers (magnet : String) : String :=
  if magnet = "" then magnet
  else if '?' ∈ magnet.data then magnet ++ "&" ++ trackerParams
  else magnet ++ "?" ++ trackerParams

/-- Why `Downloader.download_zip` stops without starting a transfer. -/
inductive ZipFailReason where
  | noAria2
  | zipNotAvailable
deriving DecidableEq

/-- Outcome of `Downloader.download_zip` in `downloader.py`: an early
failure (return `False` with a user-facing message), a skip because the
target file already exists (return `True`), or an invocation of the
external downloader with the given argument list (whose exit code then
decides the returned boolean). -/
inductive ZipOutcome where
  | fail : ZipFailReason → ZipOutcome
  | skipExisting : ZipOutcome
  | transfer : List String → ZipOutcome
deriving DecidableEq

/-- The aria2c argument list built by `Downloader.download_zip` in
`downloader.py`, parameterized by the zips directory path and the dataset
number. -/
def downloadZipArgs (zipsDir : String) (dataset_num : Nat) : List String :=
  [ "aria2c"
  , get_zip_url dataset_num
  , "--dir=" ++ zipsDir
  , "--out=DataSet" ++ Nat.repr dataset_num ++ ".zip"
  , "--header=Cookie: " ++ DOJ_COOKIE
  , "--max-connection-per-server=8"
  , "--split=8"
  , "--min-split-size=10M"
  , "--continue=true"
  , "--auto-file-renaming=false"
  , "--timeout=120"
  , "--max-tries=10"
  , "--retry-wait=5"
  , "--console-log-level=notice"
  , "--summary-interval=10" ]

/-- The aria2c argument list built by `Downloader.download_pdf_list` in
`downloader.py`, parameterized by the temporary URL-list file path and the
concurrency bound. -/
def downloadPdfListArgs (urlListFile : String) (concurrent : Nat) : List String :=
  [ "aria2c"
  , "--input-file=" ++ urlListFile
  , "--header=Cookie: " ++ DOJ_COOKIE
  , "--max-concurrent-downloads=" ++ Nat.repr concurrent
  , "--max-connection-per-server=4"
  , "--continue=true"
  , "--auto-file-renaming=false"
  , "--timeout=60"
  , "--max-tries=5"
  , "--retry-wait=3"
  , "--console-log-level=notice"
  , "--summary-interval=30" ]

/-- `Downloader.download_zip` from `downloader.py`, as a decision
function over its environment: whether aria2c is installed, the dataset
number, and whether the target ZIP file already exists at the destination
path. The guards run in source order: missing tool, then unknown or
unavailable dataset, then existing file, before any transfer is built. -/
def download_zip (aria2Available : Bool) (zipsDir : String) (dataset_num : Nat)
    (targetExists : Bool) : ZipOutcome :=
  if !aria2Available then .fail .noAria2
  else
    match findDataset dataset_num with
    | none => .fail .zipNotAvailable
    | some d =>
      if !d.zip_available then .fail .zipNotAvailable
      else if targetExists then .skipExisting
      else .transfer (downloadZipArgs zipsDir dataset_num)

/-- JSON values, for the persisted index file read by the `status`
command in `cli.py`. -/
inductive Json where
  | obj : List (String × Json) → Json
  | num : Int → Json
  | str : String → Json
  | bool : Bool → Json
  | arr : List Json → Json
  | null : Json

/-- Field lookup on a JSON object's field list, first binding wins, as in
a Python dict produced by `json.load`. -/
def jLookup (fields : List (String × Json)) (k : String) : Option Json :=
  fields.lookup k

/-- Python's `len` on a JSON value: defined for objects, arrays and
strings, a `TypeError` (here `none`) otherwise. -/
def pyLen : Json → Option Nat
  | .obj fs => some fs.length
  | .arr xs => some xs.length
  | .str s => some s.length
  | _ => none

/-- Python truthiness of a JSON value, as used by `if complete` in the
`status` command. -/
def truthy : Json → Bool
  | .obj fs => !fs.isEmpty
  | .num n => decide (n ≠ 0)
  | .str s => !(s = "")
  | .bool b => b
  | .arr xs => !xs.isEmpty
  | .null => false

/-- The index-file reading of the `status` command in `cli.py`: for the
loaded JSON object it computes `len(index.get("files", {}))`,
`index.get("last_page", 0)`, and the truthiness of
`index.get("complete", False)`; it fails (as Python would with a
`TypeError`) only if the `files` value does not support `len`. -/
def statusReport (fields : List (String × Json)) : Option (Nat × Json × Bool) :=
  match pyLen ((jLookup fields "files").getD (.obj [])) with
  | none => none
  | some n =>
    some (n, (jLookup fields "last_page").getD (.num 0),
      truthy ((jLookup fields "complete").getD (.bool false)))

/-- The file count the spec's status contract describes: the number of
entries in `files`, defaulting to 0 when the key is absent. -/
def expectedCount (fields : List (String × Json)) : Nat :=
  match jLookup fields "files" with
  | some (.obj fm) => fm.length
  | _ => 0

/-- The last-page value the spec's status contract describes: the value of
`last_page`, defaulting to 0 when the key is absent. -/
def expectedLastPage (fields : List (String × Json)) : Json :=
  (jLookup fields "last_page").getD (.num 0)

/-- The completion flag the spec's status contract describes: the
truthiness of `complete`, defaulting to false when the key is absent. -/
def expectedComplete (fields : List (String × Json)) : Bool :=
  truthy ((jLookup fields "complete").getD (.bool false))

/-- Modelled from the spec: the `scraper` module imported by `cli.py` is
absent from the repository snapshot. A `DatasetReference` is one
discovered document: a stable identifier unique within a dataset, a URL
derived from it, and a derived local basename. -/
structure DatasetReference where
  identifier : Nat
  url : String
  filename : String
deriving DecidableEq

/-- Modelled from the spec (the `scraper` module is absent from the
snapshot): the durable per-dataset `ScrapeIndex` record, with `files` a
mapping from identifier to reference, the last fully processed page, and
the completion flag. -/
structure ScrapeIndex where
  files : List (Nat × DatasetReference)
  last_page : Nat
  complete : Bool
deriving DecidableEq

/-- Whether an identifier is already present in the `files` mapping. -/
def hasId (files : List (Nat × DatasetReference)) (i : Nat) : Bool :=
  files.any (fun e => e.1 == i)

/-- Modelled from the spec (the `scraper` module is absent from the
snapshot): fold the extracted references into the `files` mapping, adding
only those whose identifier is not already present. -/
def mergeRefs (files : List (Nat × DatasetReference)) :
    List DatasetReference → List (Nat × DatasetReference)
  | [] => files
  | r :: rs =>
    if hasId files r.identifier then mergeRefs files rs
    else mergeRefs (files ++ [(r.identifier, r)]) rs

/-- Modelled from the spec (the `scraper` module is absent from the
snapshot): `merge(index, new_references, page_number)` adds only
references whose identifier is not already present, then advances
`last_page` to the maximum of its old value and the page number. -/
def merge (idx : ScrapeIndex) (new_references : List DatasetReference)
    (page_number : Nat) : ScrapeIndex :=
  { idx with
    files := mergeRefs idx.files new_references
    last_page := max idx.last_page page_number }

/-- Result of one page fetch in the scrape loop model: a transport
failure, or the page's extracted references together with whether the
listing signals a further page. -/
def PageFetch := Nat → Option (List DatasetReference × Bool)

/-- Modelled from the spec (the `scraper` module is absent from the
snapshot): the pagination loop of `DatasetScraper.scrape`. Pages are
fetched one at a time, strictly increasing; each page's references are
merged and committed before the next fetch. Per page, in order: the
`max_pages` budget (the fuel) stops without completion; a fetch failure
stops without completion; a page with zero references that reaches the
consecutive-empty-page lookahead threshold marks the index complete; an
explicit no-next-page signal marks the index complete. Returns the final
index and the number of pages fetched. -/
def scrapeLoop (fetch : PageFetch) (threshold : Nat) :
    Nat → Nat → ScrapeIndex → Nat → ScrapeIndex × Nat
  | 0, _, idx, _ => (idx, 0)
  | fuel + 1, page, idx, emptyRun =>
    match fetch page with
    | none => (idx, 1)
    | some (refs, hasNext) =>
      let idx' := merge idx refs page
      if refs.isEmpty && decide (threshold ≤ emptyRun + 1) then
        ({ idx' with complete := true }, 1)
      else if !hasNext then
        ({ idx' with complete := true }, 1)
      else
        let next := scrapeLoop fetch threshold fuel (page + 1) idx'
          (if refs.isEmpty then emptyRun + 1 else 0)
        (next.1, next.2 + 1)

/-- The references of `idx` whose identifier is not present in `idx0`:
what a scrape invocation reports as genuinely new this run. -/
def newSince (idx0 idx : ScrapeIndex) : List DatasetReference :=
  (idx.files.filter (fun e => !hasId idx0.files e.1)).map (fun e => e.2)

/-- Modelled from the spec (the `scraper` module is absent from the
snapshot): `DatasetScraper.scrape`. If the loaded index is already
complete and the start page was not explicitly forced below `last_page`,
it returns an empty reference set immediately with zero fetches.
Otherwise it starts from `max(start_page, last_page + 1)` on a default
run, or from `start_page` when explicitly forced, runs the pagination
loop, and returns the references newly discovered this invocation, the
final index, and the fetch count. -/
def scrape (fetch : PageFetch) (threshold : Nat) (idx : ScrapeIndex)
    (start_page : Nat) (forceStart : Bool) (max_pages : Nat) :
    List DatasetReference × ScrapeIndex × Nat :=
  if idx.complete && !(forceStart && decide (start_page < idx.last_page)) then
    ([], idx, 0)
  else
    let first := if forceStart then start_page else max start_page (idx.last_page + 1)
    let r := scrapeLoop fetch threshold max_pages first idx 0
    (newSince idx r.1, r.1, r.2)

/-- Ordering of index entries by identifier, used for deterministic
missing-file batches. -/
def leId (a b : Nat × DatasetReference) : Prop := a.1 ≤ b.1

instance : DecidableRel leId := fun a b => Nat.decLe a.1 b.1

instance : IsTotal (Nat × DatasetReference) leId :=
  ⟨fun a b => Nat.le_total a.1 b.1⟩

instance : IsTrans (Nat × DatasetReference) leId :=
  ⟨fun _ _ _ h1 h2 => Nat.le_trans h1 h2⟩

/-- Whether a reference's destination file is missing: its derived local
filename is absent from the destination directory, or present with size
zero (a failed prior download). The directory is modelled as a map from
filename to file size. -/
def isMissing (dir : String → Option Nat) (r : DatasetReference) : Bool :=
  match dir r.filename with
  | none => true
  | some sz => sz == 0

/-- The index entries selected for retry, sorted by identifier ascending
and filtered to the missing ones. -/
def missingEntries (idx : ScrapeIndex) (dir : String → Option Nat) :
    List (Nat × DatasetReference) :=
  (List.insertionSort leId idx.files).filter (fun e => isMissing dir e.2)

/-- Modelled from the spec (the `scraper` module is absent from the
snapshot): `DatasetScraper.get_missing_files`. It loads the index and
reconciles it against the local destination directory, returning the URLs
of the references whose destination file is absent or zero-length, in
identifier-ascending order. It is a pure function of the index and the
directory contents: no listing fetch is involved. -/
def get_missing_files (idx : ScrapeIndex) (dir : String → Option Nat) :
    List String :=
  (missingEntries idx dir).map (fun e => e.2.url)

/-- Whether two catalog entries have non-overlapping inclusive identifier
ranges; entries without a full range are vacuously compatible. -/
def rangesDisjoint (a b : DatasetInfo) : Bool :=
  match a.efta_start, a.efta_end, b.efta_start, b.efta_end with
  | some s1, some e1, some s2, some e2 => decide (e1 < s2) || decide (e2 < s1)
  | _, _, _, _ => true

/-- Left-pad a string with zeros to the given minimum width, the spec's
words for the identifier in a document URL. -/
def zeroPadTo (w : Nat) (s : String) : String :=
  if s.length < w then String.mk (List.replicate (w - s.length) '0') ++ s else s

/-- The document URL as the spec describes it: the fixed files base URL,
the dataset number, and the identifier zero-padded to 8 digits in the
filename. -/
def pdfUrlSpec (dataset_num efta_num : Nat) : String :=
  "https://www.justice.gov/epstein/files/DataSet%20" ++ Nat.repr dataset_num
    ++ "/EFTA" ++ zeroPadTo 8 (Nat.repr efta_num) ++ ".pdf"

theorem hasId_append (files l : List (Nat × DatasetReference)) (i : Nat) :
    hasId (files ++ l) i = (hasId files i || hasId l i) := by
  simp [hasId, List.any_append]

theorem hasId_mergeRefs_of_hasId (new : List DatasetReference) :
    ∀ (files : List (Nat × DatasetReference)) (i : Nat),
      hasId files i = true → hasId (mergeRefs files new) i = true := by
  induction new with
  | nil => intro files i h; exact h
  | cons a rs ih =>
    intro files i h
    unfold mergeRefs
    by_cases ha : hasId files a.identifier = true
    · simp only [ha, if_true]
      exact ih files i h
    · simp only [ha, if_false]
      exact ih _ i (by simp [hasId_append, h])

theorem hasId_mergeRefs_self (new : List DatasetReference) :
    ∀ (files : List (Nat × DatasetReference)), ∀ r ∈ new,
      hasId (mergeRefs files new) r.identifier = true := by
  induction new with
  | nil => intro files r hr; cases hr
  | cons a rs ih =>
    intro files r hr
    unfold mergeRefs
    by_cases ha : hasId files a.identifier = true
    · simp only [ha, if_true]
      rcases List.mem_cons.mp hr with rfl | hmem
      · exact hasId_mergeRefs_of_hasId rs files _ ha
      · exact ih files r hmem
    · simp only [ha, if_false]
      rcases List.mem_cons.mp hr with rfl | hmem
      · exact hasId_mergeRefs_of_hasId rs _ _ (by simp [hasId_append, hasId])
      · exact ih _ r hmem

theorem mergeRefs_eq_of_present (new : List DatasetReference) :
    ∀ (files : List (Nat × DatasetReference)),
      (∀ r ∈ new, hasId files r.identifier = true) → mergeRefs files new = files := by
  induction new with
  | nil => intro files _; rfl
  | cons a rs ih =>
    intro files h
    unfold mergeRefs
    simp only [h a (List.mem_cons_self a rs), if_true]
    exact ih files (fun r hr => h r (List.mem_cons_of_mem a hr))

/-- C1: merging the same extracted page twice yields an index identical to
merging it once — only references whose identifier is not already present
are added, and `last_page` advances to the maximum of its old value and
the page number. -/
theorem merge_idempotent (idx : ScrapeIndex) (new_references : List DatasetReference)
    (page_number : Nat) :
    merge (merge idx new_references page_number) new_references page_number
      = merge idx new_references page_number
    ∧ (merge idx new_references page_number).last_page
      = max idx.last_page page_number := by
  refine ⟨?_, rfl⟩
  have h1 : mergeRefs (mergeRefs idx.files new_references) new_references
      = mergeRefs idx.files new_references :=
    mergeRefs_eq_of_present new_references _ (hasId_mergeRefs_self new_references idx.files)
  have h2 : max (max idx.last_page page_number) page_number
      = max idx.last_page page_number := by omega
  simp [merge, h1, h2]

/-- C2: once the persisted index is complete, a default-mode scrape
invocation (start page not explicitly forced below `last_page`) performs
zero page fetches and returns an empty new-reference set, leaving the
index unchanged. -/
theorem scrape_complete_noop (fetch : PageFetch) (threshold : Nat) (idx : ScrapeIndex)
    (start_page max_pages : Nat) (h : idx.complete = true) :
    scrape fetch threshold idx start_page false max_pages = ([], idx, 0) := by
  simp [scrape, h]

theorem scrape_complete_noop_witness :
    scrape (fun _ => none) 3 ⟨[], 5, true⟩ 0 false 10 = ([], ⟨[], 5, true⟩, 0) :=
  scrape_complete_noop (fun _ => none) 3 ⟨[], 5, true⟩ 0 10 rfl

/-- C3: `get_missing_files` returns exactly the URLs of the references in
the index whose destination file is absent or zero-length, as a pure
function of the index and the directory (no listing access), listed in
identifier-ascending order. -/
theorem get_missing_files_spec (idx : ScrapeIndex) (dir : String → Option Nat) :
    (∀ u : String, u ∈ get_missing_files idx dir ↔
      ∃ e, e ∈ idx.files ∧ isMissing dir e.2 = true ∧ e.2.url = u)
    ∧ List.Sorted leId (missingEntries idx dir)
    ∧ get_missing_files idx dir = (missingEntries idx dir).map (fun e => e.2.url) := by
  refine ⟨?_, ?_, rfl⟩
  · intro u
    simp only [get_missing_files, List.mem_map, missingEntries, List.mem_filter,
      List.mem_insertionSort]
    constructor
    · rintro ⟨e, ⟨he, hm⟩, hu⟩; exact ⟨e, he, hm, hu⟩
    · rintro ⟨e, he, hm, hu⟩; exact ⟨e, ⟨he, hm⟩, hu⟩
  · exact (List.sorted_insertionSort leId idx.files).filter _

/-- C4: in the static catalog, every pair of distinct datasets that both
carry a full numeric identifier range has disjoint inclusive ranges. -/
theorem datasets_ranges_disjoint :
    ∀ p ∈ DATASETS, ∀ q ∈ DATASETS, p.1 ≠ q.1 → rangesDisjoint p.2 q.2 = true := by
  decide

theorem datasets_ranges_disjoint_witness :
    rangesDisjoint
      { number := 1, zip_available := true, zip_size_mb := some 1260
      , magnet := none, magnet_size_gb := none
      , efta_start := some 1, efta_end := some 39024 }
      { number := 9, zip_available := false, zip_size_mb := none
      , magnet := some "magnet:?xt=urn:btih:0a3d4b84a77bd982c9c2761f40944402b94f9c64"
      , magnet_size_gb := some 46
      , efta_start := some 39025, efta_end := some 1262781 } = true :=
  datasets_ranges_disjoint
    (1, { number := 1, zip_available := true, zip_size_mb := some 1260
        , magnet := none, magnet_size_gb := none
        , efta_start := some 1, efta_end := some 39024 }) (by decide)
    (9, { number := 9, zip_available := false, zip_size_mb := none
        , magnet := some "magnet:?xt=urn:btih:0a3d4b84a77bd982c9c2761f40944402b94f9c64"
        , magnet_size_gb := some 46
        , efta_start := some 39025, efta_end := some 1262781 }) (by decide)
    (by decide)

theorem pyFormat08_eq (n : Nat) : pyFormat08 n = zeroPadTo 8 (Nat.repr n) := by
  unfold pyFormat08 zeroPadTo
  by_cases h : (Nat.repr n).length < 8
  · simp [h]
  · simp only [h, if_false]
    rw [Nat.sub_eq_zero_of_le (Nat.le_of_not_lt h)]
    rfl

/-- C5: `get_pdf_url` deterministically builds the document URL from the
fixed files base URL, the dataset number, and the identifier zero-padded
to 8 digits in the filename; equal inputs yield equal URLs. -/
theorem get_pdf_url_spec (dataset_num efta_num : Nat) :
    get_pdf_url dataset_num efta_num = pdfUrlSpec dataset_num efta_num
    ∧ ∀ d' e', dataset_num = d' → efta_num = e' →
        get_pdf_url dataset_num efta_num = get_pdf_url d' e' := by
  constructor
  · unfold get_pdf_url pdfUrlSpec DOJ_FILES_URL DOJ_BASE_URL
    rw [pyFormat08_eq]
    rfl
  · intro d' e' h1 h2
    rw [h1, h2]

theorem get_pdf_url_spec_witness :
    get_pdf_url 9 123 = pdfUrlSpec 9 123 ∧ get_pdf_url 9 123 = get_pdf_url 9 123 :=
  ⟨(get_pdf_url_spec 9 123).1, (get_pdf_url_spec 9 123).2 9 123 rfl rfl⟩

/-- C6: the argument lists built by `download_zip` and
`download_pdf_list` for DOJ HTTP transfers both carry the fixed consent
cookie header. -/
theorem cookie_header_in_transfer_args (zipsDir urlListFile : String)
    (dataset_num concurrent : Nat) :
    "--header=Cookie: justiceGovAgeVerified=true" ∈ downloadZipArgs zipsDir dataset_num
    ∧ "--header=Cookie: justiceGovAgeVerified=true"
        ∈ downloadPdfListArgs urlListFile concurrent := by
  constructor
  · exact .tail _ (.tail _ (.tail _ (.tail _ (.head _))))
  · exact .tail _ (.tail _ (.head _))

/-- C7: when the external download tool is missing, or the dataset number
is unknown, or its ZIP is marked unavailable, `download_zip` stops with a
user-facing failure before any transfer invocation is built. -/
theorem download_zip_fails_fast (aria2Available : Bool) (zipsDir : String)
    (dataset_num : Nat) (targetExists : Bool)
    (h : aria2Available = false ∨ findDataset dataset_num = none
      ∨ ∃ d, findDataset dataset_num = some d ∧ d.zip_available = false) :
    download_zip aria2Available zipsDir dataset_num targetExists
        = ZipOutcome.fail ZipFailReason.noAria2
    ∨ download_zip aria2Available zipsDir dataset_num targetExists
        = ZipOutcome.fail ZipFailReason.zipNotAvailable := by
  rcases h with h | h | ⟨d, hd, hz⟩
  · subst h
    exact Or.inl rfl
  · cases aria2Available
    · exact Or.inl rfl
    · refine Or.inr ?_
      simp [download_zip, h]
  · cases aria2Available
    · exact Or.inl rfl
    · refine Or.inr ?_
      simp [download_zip, hd, hz]

theorem download_zip_fails_fast_witness :
    download_zip true "zips" 13 false = ZipOutcome.fail ZipFailReason.noAria2
    ∨ download_zip true "zips" 13 false = ZipOutcome.fail ZipFailReason.zipNotAvailable :=
  download_zip_fails_fast true "zips" 13 false (Or.inr (Or.inl (by decide)))

theorem jLookup_cons_ne (k : String) (v : Json) (fields : List (String × Json))
    (key : String) (h : key ≠ k) :
    jLookup ((k, v) :: fields) key = jLookup fields key := by
  simp only [jLookup, List.lookup, beq_eq_false_iff_ne.mpr h]

/-- C8: the status inspector reads any persisted index object whose known
keys follow the contract, reporting the entry count of `files`
(defaulting to 0), `last_page` (defaulting to 0) and the completion flag
(defaulting to false), while ignoring all unknown fields. -/
theorem status_reads_any_index (fields : List (String × Json))
    (h : jLookup fields "files" = none
      ∨ ∃ fm, jLookup fields "files" = some (Json.obj fm)) :
    statusReport fields
      = some (expectedCount fields, expectedLastPage fields, expectedComplete fields)
    ∧ ∀ (k : String) (v : Json), k ≠ "files" → k ≠ "last_page" → k ≠ "complete" →
        statusReport ((k, v) :: fields) = statusReport fields := by
  constructor
  · rcases h with h | ⟨fm, h⟩
    · simp [statusReport, expectedCount, expectedLastPage, expectedComplete, h, pyLen]
    · simp [statusReport, expectedCount, expectedLastPage, expectedComplete, h, pyLen]
  · intro k v h1 h2 h3
    unfold statusReport
    rw [jLookup_cons_ne k v fields "files" (Ne.symm h1),
      jLookup_cons_ne k v fields "last_page" (Ne.symm h2),
      jLookup_cons_ne k v fields "complete" (Ne.symm h3)]

theorem status_reads_any_index_witness :
    statusReport [("files", Json.obj [("a", Json.null)]), ("extra", Json.str "x")]
      = some (1, Json.num 0, false) :=
  (status_reads_any_index
    [("files", Json.obj [("a", Json.null)]), ("extra", Json.str "x")]
    (Or.inr ⟨[("a", Json.null)], rfl⟩)).1

theorem download_zip_existing_counterexample :
    download_zip true "zips" 9 true = ZipOutcome.fail ZipFailReason.zipNotAvailable
    ∧ download_zip true "zips" 9 true ≠ ZipOutcome.skipExisting := by
  decide

/-- C9 (amended): for a dataset present in the catalog with its ZIP
available, when the external tool is present and the target ZIP file
already exists at the destination path (regardless of its size, including
size zero), `download_zip` returns success without building a transfer
invocation, leaving the existing file untouched. -/
theorem download_zip_existing_skips (zipsDir : String) (dataset_num : Nat)
    (d : DatasetInfo) (hd : findDataset dataset_num = some d)
    (hz : d.zip_available = true) :
    download_zip true zipsDir dataset_num true = ZipOutcome.skipExisting := by
  simp [download_zip, hd, hz]

theorem download_zip_existing_skips_witness :
    download_zip true "zips" 1 true = ZipOutcome.skipExisting :=
  download_zip_existing_skips "zips" 1
    { number := 1, zip_available := true, zip_size_mb := some 1260
    , magnet := none, magnet_size_gb := none
    , efta_start := some 1, efta_end := some 39024 } (by decide) rfl

/-- C10: for a non-empty magnet the result extends the original magnet
with an ampersand when it already carries a query string and a question
mark otherwise, followed by one tr parameter per tracker in order; an
empty magnet is returned unchanged. -/
theorem get_magnet_with_trackers_spec (magnet : String) :
    (magnet = "" → get_magnet_with_trackers magnet = magnet)
    ∧ (magnet ≠ "" → get_magnet_with_trackers magnet
        = magnet ++ (if '?' ∈ magnet.data then "&" else "?") ++ trackerParams) := by
  constructor
  · intro h
    simp [get_magnet_with_trackers, h]
  · intro h
    by_cases hq : '?' ∈ magnet.data
    · simp [get_magnet_with_trackers, h, hq]
    · simp [get_magnet_with_trackers, h, hq]

theorem get_magnet_with_trackers_spec_witness :
    get_magnet_with_trackers "" = ""
    ∧ get_magnet_with_trackers "magnet:?xt=abc" = "magnet:?xt=abc" ++ "&" ++ trackerParams :=
  ⟨(get_magnet_with_trackers_spec "").1 rfl,
   (get_magnet_with_trackers_spec "magnet:?xt=abc").2 (by decide)⟩

end EpsteinDL
